import Mathlib

/-!
Shallow embedding of the slide-explanation pipeline of this repository.

The remote language-model collaborator is modelled as an oracle: a function
from the chat messages actually sent to either a completion text
(`Except.ok`) or a transient remote error carrying its message
(`Except.error`).  Retry loops additionally index the oracle by the attempt
ordinal, since successive attempts may observe different outcomes.

Each embedded operation returns, besides its result, a trace of the remote
calls it issued (the exact message lists sent) and of the backoff sleeps it
performed (wait times in seconds), so that call counts and backoff schedules
are observable in theorems.

Python exceptions are modelled by `PyErr`; `Except.error` propagation plays
the role of raising.  In the SDK generation this code imports,
`openai.error` is a module, not an exception class, so in Python 3 every
`except openai.error` clause of the source raises
`TypeError: catching classes that do not inherit from BaseException is not
allowed` as soon as any exception reaches it: the handler body never runs,
no retry iteration beyond a first failed attempt ever happens, no backoff
sleep executes, and the exhaustion raises after the loops are reachable
only with a zero bound.  The embedding models this faithfully: a failure
arriving at such a clause is replaced by `openai_error_module_catch`, the
`TypeError` raised by the clause itself.
-/

set_option autoImplicit false

/-- One chat message of a remote completion request. -/
structure ChatMsg where
  role : String
  content : String
deriving DecidableEq

/-- The Python exceptions appearing in the embedded code. -/
inductive PyErr where
  | valueError (msg : String)
  | runtimeError (msg : String)
  | typeError (msg : String)
  | exception (msg : String)
deriving DecidableEq

/-- The `TypeError` that Python 3 raises when an exception reaches an
`except` clause whose expression is not an exception class — here
`openai.error`, a module of the SDK generation this code imports.  It
replaces whatever exception arrived at the clause; the handler body never
runs. -/
def openai_error_module_catch : PyErr :=
  PyErr.typeError "catching classes that do not inherit from BaseException is not allowed"

deriving instance DecidableEq for Except

/-- A single remote completion call: messages in, completion text or
transient error message out. -/
abbrev SlideApi := List ChatMsg → Except String String

/-- The messages built by `generate_explanation_for_slide` in
`src/gpt_explainer/gpt_slide_expander.py` (identical in the draft
`src/gpt_slide_expander.py`). -/
def slideMessages (slide_text presentation_topic : String) : List ChatMsg :=
  [⟨"system", "You are a chatbot that generates expanded explanations about slide topics."⟩,
   ⟨"user", s!"Please provide an expanded explanation for the slide content. The slide topic is: {slide_text}. If applicable, provide the explanation within the context of the main topic: {presentation_topic}. Please make the explanation natural and expand on the slide topic with relevant details. make the explanation up tp 3 sentences"⟩]

/-- `GptSlideExpander.generate_explanation_for_slide`: if the slide text is
truthy (non-empty) and not the single-space string, issue one remote call and
return its completion verbatim (a transient remote failure propagates);
otherwise return the fixed sentinel with no remote call.  The second
component is the trace of remote calls issued. -/
def generate_explanation_for_slide (api : SlideApi) (slide_text presentation_topic : String) :
    Except String String × List (List ChatMsg) :=
  if slide_text ≠ "" ∧ slide_text ≠ " " then
    (api (slideMessages slide_text presentation_topic),
     [slideMessages slide_text presentation_topic])
  else
    (Except.ok "No text in the slide - unable to generate explanation", [])

/-- Outcome of one run of a retrying loop: result, remote calls issued in
order, and backoff sleeps performed in order (seconds). -/
structure SlideRun where
  result : Except PyErr String
  calls : List (List ChatMsg)
  sleeps : List Nat
deriving DecidableEq

/-- The `for _ in range(max_try)` loop of
`generate_explanation_for_slide_with_retry`, with `remaining` iterations
left and `k` the ordinal of the next attempt.  On a successful attempt the
completion is returned.  On a failing attempt the raised transient error
reaches `except openai.error`, a clause naming a module, which therefore
raises the `TypeError` itself — the `print` handler never runs and the loop
never reaches a second iteration.  Only with a zero bound, when the loop
body never runs, is the plain `Exception` carrying the attempt bound
raised. -/
def slideRetryGo (api : Nat → SlideApi) (slide_text presentation_topic : String)
    (max_try : Nat) : Nat → Nat → SlideRun
  | 0, _ => ⟨Except.error (PyErr.exception s!"Query failed after {max_try} attempts."), [], []⟩
  | _ + 1, k =>
    match generate_explanation_for_slide (api k) slide_text presentation_topic with
    | (Except.ok c, calls) => ⟨Except.ok c, calls, []⟩
    | (Except.error _, calls) => ⟨Except.error openai_error_module_catch, calls, []⟩

/-- `GptSlideExpander.generate_explanation_for_slide_with_retry`. -/
def generate_explanation_for_slide_with_retry (api : Nat → SlideApi)
    (slide_text presentation_topic : String) (max_try : Nat) : SlideRun :=
  slideRetryGo api slide_text presentation_topic max_try max_try 0

set_option linter.unusedVariables false in
/-- `GptSlideExpander.process_individual_slide_explanation_safely`: runs the
retrying loop inside `try`/`except openai.error`.  The handler, which would
return the error sentinel embedding the slide index, is dead code: the
clause names a module, so any exception escaping the retry loop makes the
clause itself raise the `TypeError`, which propagates in place of the
arriving exception.  A successful result passes through unchanged.  The
`slide_index` parameter of the source is kept although only its dead
handler would have used it. -/
def process_individual_slide_explanation_safely (api : Nat → SlideApi)
    (slide_text presentation_topic : String) (max_retry slide_index : Nat) : SlideRun :=
  let run := generate_explanation_for_slide_with_retry api slide_text presentation_topic max_retry
  match run.result with
  | Except.error _ => { run with result := Except.error openai_error_module_catch }
  | _ => run

/-- `asyncio.gather` over already-terminated unit outcomes: returns the list
of results in task order, or propagates an exception if some unit raised
one. -/
def gatherExcept {α : Type} : List (Except PyErr α) → Except PyErr (List α)
  | [] => Except.ok []
  | x :: xs =>
    match x with
    | Except.error e => Except.error e
    | Except.ok a =>
      match gatherExcept xs with
      | Except.error e => Except.error e
      | Except.ok as => Except.ok (a :: as)

/-- The static coordinator
`GptSlideExpander.generate_explanation_for_presentation` of
`src/gpt_explainer/gpt_slide_expander.py`: one unit per value of the input
mapping (`enumerate(parsed_presentation.values())`, unit index `index + 1`),
gathered, then reassembled into a fresh dictionary keyed by
`enumerate(results, start=1)`.  `apis i` is the oracle observed by the unit
of index `i`. -/
def generate_explanation_for_presentation (apis : Nat → Nat → SlideApi)
    (parsed_presentation : List (Nat × String)) (presentation_topic : String)
    (max_retry : Nat) : Except PyErr (List (Nat × String)) :=
  let vals := parsed_presentation.map Prod.snd
  let runs := vals.enum.map fun p =>
    process_individual_slide_explanation_safely (apis (p.1 + 1)) p.2 presentation_topic
      max_retry (p.1 + 1)
  match gatherExcept (runs.map SlideRun.result) with
  | Except.error e => Except.error e
  | Except.ok results => Except.ok (results.enumFrom 1)

/-- The draft coordinator of `src/gpt_slide_expander.py`: identical fan-out,
but instead of returning a fresh dictionary it writes each result into the
instance accumulator `self.expanded_slide_explanations` (modelled as the
state `expanded_slide_explanations : Nat → Option String`, never cleared)
and returns nothing. -/
def draft_generate_explanation_for_presentation (apis : Nat → Nat → SlideApi)
    (expanded_slide_explanations : Nat → Option String)
    (parsed_presentation : List (Nat × String)) (presentation_topic : String)
    (max_retry : Nat) : Except PyErr (Nat → Option String) :=
  let vals := parsed_presentation.map Prod.snd
  let runs := vals.enum.map fun p =>
    process_individual_slide_explanation_safely (apis (p.1 + 1)) p.2 presentation_topic
      max_retry (p.1 + 1)
  match gatherExcept (runs.map SlideRun.result) with
  | Except.error e => Except.error e
  | Except.ok results =>
    Except.ok ((results.enumFrom 1).foldl
      (fun st q => Function.update st q.1 (some q.2)) expanded_slide_explanations)

/-- The messages built by `generate_presentation_main_topic`. -/
def topicMessages (presentation_text : String) : List ChatMsg :=
  [⟨"system", "You are a chatbot that extracts the main topic of a presentation based on the presentation\x27s text."⟩,
   ⟨"user", s!"Provide the main topic of this presentation based on the presentation\x27s following text: {presentation_text} , no longer than one word."⟩]

/-- Outcome of the topic-resolution loop. -/
structure TopicRun where
  result : Except PyErr String
  calls : List (List ChatMsg)
  sleeps : List Nat
deriving DecidableEq

/-- The `while retry_count < max_retry` loop of
`generate_presentation_main_topic`, with `remaining = max_retry - retry_count`
iterations left, `k` the ordinal of the next attempt and `wait_time` the
current backoff.  On a successful attempt the completion is returned.  On a
failing attempt the raised transient error reaches
`except openai.error: pass`, a clause naming a module, which therefore
raises the `TypeError` itself — so the `retry_count += 1`,
`time.sleep(wait_time)` and `wait_time += 1` statements after the handler
are never reached: no sleep, no second attempt.  Only with a zero bound,
when the loop body never runs, is the `RuntimeError` carrying the attempt
bound raised. -/
def topicRetryGo (api : Nat → SlideApi) (presentation_text : String) (max_retry : Nat) :
    Nat → Nat → Nat → TopicRun
  | 0, _, _ => ⟨Except.error (PyErr.runtimeError s!"Query failed after {max_retry} attempts."), [], []⟩
  | _ + 1, k, _ =>
    match api k (topicMessages presentation_text) with
    | Except.ok t => ⟨Except.ok t, [topicMessages presentation_text], []⟩
    | Except.error _ =>
      ⟨Except.error openai_error_module_catch, [topicMessages presentation_text], []⟩

/-- `GptSlideExpander.generate_presentation_main_topic`: on a truthy
(non-empty) presentation text, run the retry loop with `retry_count = 0` and
`wait_time = 4`; on an empty text, raise `ValueError` at once, with no
remote call and no attempt. -/
def generate_presentation_main_topic (api : Nat → SlideApi) (presentation_text : String)
    (max_retry : Nat) : TopicRun :=
  if presentation_text ≠ "" then
    topicRetryGo api presentation_text max_retry max_retry 0 4
  else
    ⟨Except.error (PyErr.valueError "Invalid data. presentation\x27s text cannot be empty."), [], []⟩

/-- One text run of a paragraph of a pptx shape (`run.text`). -/
structure TextRun where
  text : String
deriving DecidableEq

/-- One paragraph of a pptx text frame. -/
structure Paragraph where
  runs : List TextRun
deriving DecidableEq

/-- One shape of a pptx slide; `text_frame = none` models a shape without a
`text_frame` attribute. -/
structure Shape where
  text_frame : Option (List Paragraph)
deriving DecidableEq

/-- A pptx slide is its list of shapes. -/
abbrev Slide := List Shape

/-- `PPTXParser.extract_text_from_paragraph` of `src/parse_pptx.py`. -/
def extract_text_from_paragraph (paragraph : Paragraph) : String :=
  String.join (paragraph.runs.map fun run => run.text ++ " ")

/-- `PPTXParser.extract_text_from_shape` of `src/parse_pptx.py`. -/
def extract_text_from_shape (shape : Shape) : String :=
  match shape.text_frame with
  | some paragraphs => String.join (paragraphs.map extract_text_from_paragraph)
  | none => ""

/-- `PPTXParser.extract_text_from_slide` of `src/parse_pptx.py`. -/
def extract_text_from_slide (current_slide : Slide) : String :=
  String.join (current_slide.map extract_text_from_shape)

/-- `PPTXParser.extract_text_from_presentation` of `src/parse_pptx.py`:
for each slide, in order, the cleaned extracted text is stored under key
`slide_number + 1`; a falsy (empty) text stores the empty string. -/
def extract_text_from_presentation (slides : List Slide) : List (Nat × String) :=
  slides.enum.map fun p =>
    let slide_text := (extract_text_from_slide p.2).replace "Â©" ""
    (p.1 + 1, if slide_text ≠ "" then slide_text else "")

/-- The per-key result writes of the coordinator, performed in an arbitrary
completion order: starting from the empty dictionary, each unit `i` in
`order` writes its own outcome `outcomes i` to its own key. -/
def writeResults (outcomes : Nat → String) (order : List Nat) : Nat → Option String :=
  order.foldl (fun m i => Function.update m i (some (outcomes i))) fun _ => none

section Helpers

/-- Evaluating a fold of single-key writes: a key in the write order gets its
own outcome, any other key keeps its prior value. -/
theorem foldl_update_apply (outcomes : Nat → String) :
    ∀ (order : List Nat) (m : Nat → Option String) (i : Nat),
      (order.foldl (fun m j => Function.update m j (some (outcomes j))) m) i
        = if i ∈ order then some (outcomes i) else m i := by
  intro order
  induction order with
  | nil => intro m i; simp
  | cons a t ih =>
    intro m i
    rw [List.foldl_cons, ih]
    by_cases hit : i ∈ t
    · simp [hit]
    · by_cases hia : i = a
      · subst hia
        simp [hit, Function.update_same]
      · simp [hit, hia, Function.update_noteq hia]

/-- The dictionary produced by the per-key writes depends only on which
units wrote, not on the order in which they completed. -/
theorem writeResults_eq_of_mem_iff (outcomes : Nat → String) (o₁ o₂ : List Nat)
    (h : ∀ i, i ∈ o₁ ↔ i ∈ o₂) : writeResults outcomes o₁ = writeResults outcomes o₂ := by
  funext i
  rw [writeResults, writeResults, foldl_update_apply, foldl_update_apply]
  by_cases hi : i ∈ o₂
  · simp [hi, (h i).mpr hi]
  · simp [hi, show i ∉ o₁ from fun hh => hi ((h i).mp hh)]

/-- A fold of single-key pair writes leaves every key outside the written
key list unchanged. -/
theorem foldl_update_pairs_of_not_mem :
    ∀ (ps : List (Nat × String)) (m : Nat → Option String) (j : Nat),
      j ∉ ps.map Prod.fst →
      (ps.foldl (fun (st : Nat → Option String) (q : Nat × String) =>
        Function.update st q.1 (some q.2)) m) j = m j := by
  intro ps
  induction ps with
  | nil => intro m j _; rfl
  | cons p t ih =>
    intro m j hj
    rw [List.map_cons, List.mem_cons] at hj
    push_neg at hj
    rw [List.foldl_cons, ih _ _ hj.2, Function.update_noteq hj.1]

/-- `gatherExcept` succeeds exactly when no unit raised, and then returns
one result per unit. -/
theorem gatherExcept_ok_length {α : Type} :
    ∀ (l : List (Except PyErr α)) (as : List α), gatherExcept l = Except.ok as →
      as.length = l.length := by
  intro l
  induction l with
  | nil =>
    intro as h
    cases h
    rfl
  | cons x xs ih =>
    intro as h
    cases x with
    | error e => exact Except.noConfusion h
    | ok a =>
      simp only [gatherExcept] at h
      cases hg : gatherExcept xs with
      | error e => rw [hg] at h; exact Except.noConfusion h
      | ok bs =>
        rw [hg] at h
        cases h
        simp [ih bs hg]

/-- Whenever the static coordinator returns a dictionary, its keys are
exactly `1..n` in order, `n` the number of input entries. -/
theorem coordinator_ok_keys (apis : Nat → Nat → SlideApi)
    (parsed_presentation : List (Nat × String)) (presentation_topic : String)
    (max_retry : Nat) (m : List (Nat × String))
    (h : generate_explanation_for_presentation apis parsed_presentation presentation_topic
        max_retry = Except.ok m) :
    m.map Prod.fst = List.range' 1 parsed_presentation.length := by
  simp only [generate_explanation_for_presentation] at h
  split at h
  · exact Except.noConfusion h
  · rename_i results heq
    cases h
    have hlen := gatherExcept_ok_length _ _ heq
    simp only [List.length_map, List.enum_length] at hlen
    rw [List.enumFrom_map_fst, hlen]

/-- Behaviour of a topic-resolution loop iteration whose attempt fails: one
call, no sleep, and the `TypeError` raised by the except clause itself. -/
theorem topicRetryGo_fail_type_error (api : Nat → SlideApi) (text : String)
    (N r k w : Nat) (e : String)
    (hfail : api k (topicMessages text) = Except.error e) :
    topicRetryGo api text N (r + 1) k w =
      ⟨Except.error openai_error_module_catch, [topicMessages text], []⟩ := by
  rw [topicRetryGo, hfail]

/-- Behaviour of a per-slide loop iteration on a non-blank slide text whose
attempt fails: one call, no sleep, and the `TypeError` raised by the except
clause itself. -/
theorem slideRetryGo_fail_type_error (api : Nat → SlideApi) (slide_text topic : String)
    (N r k : Nat) (e : String) (h1 : slide_text ≠ "") (h2 : slide_text ≠ " ")
    (hfail : api k (slideMessages slide_text topic) = Except.error e) :
    slideRetryGo api slide_text topic N (r + 1) k =
      ⟨Except.error openai_error_module_catch, [slideMessages slide_text topic], []⟩ := by
  rw [slideRetryGo, generate_explanation_for_slide, if_pos ⟨h1, h2⟩, hfail]

/-- Behaviour of the per-slide retry loop when the oracle succeeds at the
first attempt: one call, no sleep, the completion returned verbatim. -/
theorem slideRetryGo_first_ok (api : Nat → SlideApi) (slide_text topic c : String)
    (N r k : Nat) (h1 : slide_text ≠ "") (h2 : slide_text ≠ " ")
    (hok : api k (slideMessages slide_text topic) = Except.ok c) :
    slideRetryGo api slide_text topic N (r + 1) k =
      ⟨Except.ok c, [slideMessages slide_text topic], []⟩ := by
  rw [slideRetryGo, generate_explanation_for_slide, if_pos ⟨h1, h2⟩, hok]

/-- Behaviour of the per-slide retry loop on a blank (short-circuiting)
slide text: immediate success with the sentinel, no call, no sleep. -/
theorem slideRetryGo_blank (api : Nat → SlideApi) (slide_text topic : String)
    (N r k : Nat) (h : ¬(slide_text ≠ "" ∧ slide_text ≠ " ")) :
    slideRetryGo api slide_text topic N (r + 1) k =
      ⟨Except.ok "No text in the slide - unable to generate explanation", [], []⟩ := by
  rw [slideRetryGo, generate_explanation_for_slide, if_neg h]

/-- A per-slide unit whose first remote call succeeds: the safely wrapper
passes the completion through unchanged. -/
theorem safely_first_ok (api : Nat → SlideApi) (slide_text topic c : String)
    (r slide_index : Nat) (h1 : slide_text ≠ "") (h2 : slide_text ≠ " ")
    (hok : api 0 (slideMessages slide_text topic) = Except.ok c) :
    process_individual_slide_explanation_safely api slide_text topic (r + 1) slide_index =
      ⟨Except.ok c, [slideMessages slide_text topic], []⟩ := by
  simp only [process_individual_slide_explanation_safely,
    generate_explanation_for_slide_with_retry]
  rw [slideRetryGo_first_ok api slide_text topic c (r + 1) r 0 h1 h2 hok]

/-- A per-slide unit on a blank slide text: the safely wrapper passes the
short-circuit sentinel through unchanged. -/
theorem safely_blank (api : Nat → SlideApi) (slide_text topic : String)
    (r slide_index : Nat) (h : ¬(slide_text ≠ "" ∧ slide_text ≠ " ")) :
    process_individual_slide_explanation_safely api slide_text topic (r + 1) slide_index =
      ⟨Except.ok "No text in the slide - unable to generate explanation", [], []⟩ := by
  simp only [process_individual_slide_explanation_safely,
    generate_explanation_for_slide_with_retry]
  rw [slideRetryGo_blank api slide_text topic (r + 1) r 0 h]

end Helpers

/-!
Claim theorems.
-/

/-- C1: the claim states that for every input slide mapping with keys
`{1..n}`, any topic and any `max_retry`, the coordinator
`generate_explanation_for_presentation` returns a mapping with key set
exactly `{1..n}` and never a partial one, returning only after every
per-slide unit reached a terminal outcome.  The code violates this: the
exhaustion of a retry loop raises a plain `Exception`, which the
`except openai.error` clause of `process_individual_slide_explanation_safely`
does not catch, so it escapes into `asyncio.gather` and the coordinator
itself fails, returning no mapping at all.  Because `openai.error` is a
module, the escaping exception is in fact the `TypeError` raised by the
except clauses themselves, already at the first failed attempt; under the
charitable reading in which the clauses caught transient errors it would be
the exhaustion `Exception` instead — either way the coordinator raises.
This theorem evaluates the code at the failing input: one slide (keys
`{1}`) whose remote calls always fail transiently, with `max_retry = 1`. -/
theorem c1_coordinator_fails_instead_of_returning_mapping :
    generate_explanation_for_presentation (fun _ _ _ => Except.error "boom") [(1, "x")] "t" 1
      = Except.error (PyErr.typeError
          "catching classes that do not inherit from BaseException is not allowed") := rfl

/-- C2: the claim states that when the remote calls of slide `k` always fail
transiently while the others succeed, the entry of every other slide is its
successful explanation and the entry of slide `k` is the error sentinel
embedding `k`, the exhaustion never being a coordinator-level failure.  The
code violates this: the failing slide makes its exception escape the safely
wrapper — `except openai.error` names a module, so the clause raises a
`TypeError` in place of running the sentinel handler, which is dead code —
and `asyncio.gather` re-raises the escaping exception, so the whole
coordinator fails, the successful sibling result is lost and no sentinel
embeds the index.  Under the charitable reading in which the clauses caught
transient errors, the exhaustion `Exception` would escape instead, with the
same coordinator-level failure.  This theorem evaluates the code at the
failing input: slides `{1: "a", 2: "b"}` with `max_retry = 1`, slide 2
always failing transiently and slide 1 succeeding. -/
theorem c2_slide_failure_is_coordinator_failure :
    generate_explanation_for_presentation
      (fun i _ _ => if i = 2 then Except.error "E2" else Except.ok "OK")
      [(1, "a"), (2, "b")] "t" 1
      = Except.error (PyErr.typeError
          "catching classes that do not inherit from BaseException is not allowed") := rfl

/-- C6: topic resolution on an empty presentation text fails immediately
with `ValueError`, issuing zero remote completion calls and consuming zero
retry attempts and zero sleeps, for every oracle and every `max_retry`. -/
theorem c6_empty_text_fast_fail :
    ∀ (api : Nat → SlideApi) (max_retry : Nat),
      generate_presentation_main_topic api "" max_retry
        = ⟨Except.error (PyErr.valueError "Invalid data. presentation\x27s text cannot be empty."),
            [], []⟩ := by
  intro api max_retry
  rfl

/-- C3: the claim states that with `maxRetries = N` and an operation that
always fails transiently, exactly `N` attempts occur before the exhaustion
error, with linear backoff waits `w0, w0+1, ...` between consecutive
attempts, for both the topic-resolution loop and the per-slide loop.  The
code violates this: its own docstrings and the `# Increase wait time and
retry` comment document bounded retry with increasing waits, but
`except openai.error` names a module, so the first failed attempt raises a
`TypeError` from the clause itself — each loop performs exactly one
attempt, no sleep ever executes, and the exhaustion error is never reached
(the per-slide loop moreover contains no sleep statement even as written).
This theorem evaluates both loops at the failing input `max_retry = 2` with
an always-failing remote: one call each, an empty sleep trace, and the
`TypeError`, instead of two attempts separated by a 4 second wait. -/
theorem c3_single_attempt_no_backoff_then_type_error :
    generate_presentation_main_topic (fun _ _ => Except.error "E") "p" 2
      = ⟨Except.error (PyErr.typeError
            "catching classes that do not inherit from BaseException is not allowed"),
          [topicMessages "p"], []⟩ ∧
    generate_explanation_for_slide_with_retry (fun _ _ => Except.error "E") "x" "t" 2
      = ⟨Except.error (PyErr.typeError
            "catching classes that do not inherit from BaseException is not allowed"),
          [slideMessages "x" "t"], []⟩ := ⟨rfl, rfl⟩

/-- C7 counterexample: the claim states that whenever a retry loop exhausts
its bound, the raised error carries both the attempt count and the last
underlying error from the failed attempts.  With bound 1 and a failing
attempt the loop never reaches its exhaustion raise at all: the terminating
error is the constant `TypeError` from the except clause, identical for the
two distinct underlying errors `E0` and `E1` — so it carries neither — and
distinct from the exhaustion `RuntimeError` that would carry the attempt
count. -/
theorem c7_counterexample_terminating_error_constant :
    (generate_presentation_main_topic (fun _ _ => Except.error "E0") "p" 1).result
        = Except.error (PyErr.typeError
            "catching classes that do not inherit from BaseException is not allowed") ∧
    (generate_presentation_main_topic (fun _ _ => Except.error "E1") "p" 1).result
        = Except.error (PyErr.typeError
            "catching classes that do not inherit from BaseException is not allowed") ∧
    ("E0" : String) ≠ "E1" ∧
    (Except.error (PyErr.typeError
          "catching classes that do not inherit from BaseException is not allowed")
        : Except PyErr String)
        ≠ Except.error (PyErr.runtimeError "Query failed after 1 attempts.") :=
  ⟨rfl, rfl, by decide, by decide⟩

/-- C7 amended: neither retry loop ever raises an exhaustion error after a
failed attempt: with a positive bound, the first transient failure raises
the `TypeError` from the `except openai.error` clause itself (the clause
names a module, not an exception class), identical whatever the underlying
error, so the raised error carries neither the attempt count nor the last
underlying error.  The exhaustion errors — `RuntimeError` for the topic
loop, plain `Exception` for the per-slide loop, carrying the attempt bound
in their message but no underlying error — are raised only when the bound
is 0, before any attempt and with zero remote calls. -/
theorem c7_no_exhaustion_after_failed_attempts :
    ∀ (N : Nat) (api : Nat → SlideApi) (errs : Nat → String) (text slide_text topic : String),
      1 ≤ N → (∀ k msgs, api k msgs = Except.error (errs k)) →
      text ≠ "" → slide_text ≠ "" → slide_text ≠ " " →
      (generate_presentation_main_topic api text N).result
          = Except.error openai_error_module_catch ∧
      (generate_explanation_for_slide_with_retry api slide_text topic N).result
          = Except.error openai_error_module_catch ∧
      generate_presentation_main_topic api text 0
          = ⟨Except.error (PyErr.runtimeError "Query failed after 0 attempts."), [], []⟩ ∧
      generate_explanation_for_slide_with_retry api slide_text topic 0
          = ⟨Except.error (PyErr.exception "Query failed after 0 attempts."), [], []⟩ := by
  intro N api errs text slide_text topic hN hfail htext h1 h2
  obtain ⟨r, rfl⟩ : ∃ r, N = r + 1 := ⟨N - 1, by omega⟩
  refine ⟨?_, ?_, ?_, ?_⟩
  · rw [generate_presentation_main_topic, if_pos htext,
      topicRetryGo_fail_type_error api text (r + 1) r 0 4 (errs 0)
        (hfail 0 (topicMessages text))]
  · rw [generate_explanation_for_slide_with_retry,
      slideRetryGo_fail_type_error api slide_text topic (r + 1) r 0 (errs 0) h1 h2
        (hfail 0 (slideMessages slide_text topic))]
  · rw [generate_presentation_main_topic, if_pos htext]
    rfl
  · rfl

/-- C7 witness: the amended statement at `N = 1` with an oracle that always
fails with message `E`. -/
theorem c7_witness :
    (generate_presentation_main_topic (fun _ _ => Except.error "E") "p" 1).result
        = Except.error openai_error_module_catch ∧
    (generate_explanation_for_slide_with_retry (fun _ _ => Except.error "E") "x" "t" 1).result
        = Except.error openai_error_module_catch ∧
    generate_presentation_main_topic (fun _ _ => Except.error "E") "p" 0
        = ⟨Except.error (PyErr.runtimeError "Query failed after 0 attempts."), [], []⟩ ∧
    generate_explanation_for_slide_with_retry (fun _ _ => Except.error "E") "x" "t" 0
        = ⟨Except.error (PyErr.exception "Query failed after 0 attempts."), [], []⟩ :=
  c7_no_exhaustion_after_failed_attempts 1 (fun _ _ => Except.error "E") (fun _ => "E")
    "p" "x" "t" (by decide) (fun _ _ => rfl) (by decide) (by decide) (by decide)

/-- C4 counterexample: the claim requires every whitespace-only slide text
to short-circuit with zero remote calls, but the code tests only for the
empty string and the single-space string.  The two-space text issues a
remote call and returns the completion, not the sentinel. -/
theorem c4_counterexample_two_spaces_calls_remote :
    generate_explanation_for_slide (fun _ => Except.ok "C") "  " "t"
        = (Except.ok "C", [slideMessages "  " "t"]) ∧
    (Except.ok "C" : Except String String)
        ≠ Except.ok "No text in the slide - unable to generate explanation" ∧
    [slideMessages "  " "t"] ≠ [] := ⟨rfl, by decide, by decide⟩

/-- C4 amended: only for the empty slide text and the exact single-space
slide text does `generate_explanation_for_slide` return the fixed sentinel
immediately with zero remote calls; for every other text — including other
whitespace-only strings — it issues exactly one remote call whose completion
text is returned verbatim. -/
theorem c4_short_circuit_only_empty_or_single_space :
    ∀ (api : SlideApi) (slide_text topic : String),
      ((slide_text = "" ∨ slide_text = " ") →
        generate_explanation_for_slide api slide_text topic
          = (Except.ok "No text in the slide - unable to generate explanation", [])) ∧
      (slide_text ≠ "" → slide_text ≠ " " →
        generate_explanation_for_slide api slide_text topic
          = (api (slideMessages slide_text topic), [slideMessages slide_text topic])) := by
  intro api slide_text topic
  constructor
  · intro h
    rw [generate_explanation_for_slide,
      if_neg (show ¬(slide_text ≠ "" ∧ slide_text ≠ " ") from
        fun hc => h.elim (fun he => hc.1 he) fun hs => hc.2 hs)]
  · intro h1 h2
    rw [generate_explanation_for_slide, if_pos ⟨h1, h2⟩]

/-- C4 witness: the amended short-circuit statement at the empty slide
text. -/
theorem c4_witness :
    generate_explanation_for_slide (fun _ => Except.ok "C") "" "t"
      = (Except.ok "No text in the slide - unable to generate explanation", []) :=
  (c4_short_circuit_only_empty_or_single_space (fun _ => Except.ok "C") "" "t").1 (Or.inl rfl)

/-- C5 counterexample: the claim requires the result key set to equal the
input key set for every ordered input mapping, regardless of what its keys
are.  The coordinator iterates over the values only and renumbers the
results from 1, so the input keyed `{2}` yields the result keyed `{1}`. -/
theorem c5_counterexample_keys_renumbered :
    generate_explanation_for_presentation (fun _ _ _ => Except.ok "C") [(2, "a")] "t" 1
        = Except.ok [(1, "C")] ∧
    ([(1, "C")] : List (Nat × String)).map Prod.fst
        ≠ ([(2, "a")] : List (Nat × String)).map Prod.fst := ⟨rfl, by decide⟩

/-- C5 amended: whenever the coordinator returns a mapping, its keys are
exactly `1..n` in order, `n` the number of input entries — which equals the
input key set exactly when the input is keyed `{1..n}` — and the assembled
mapping is independent of the order in which the per-key results are
written: any completion order that is a permutation of the key list yields
the same dictionary. -/
theorem c5_result_keys_are_one_to_n :
    ∀ (apis : Nat → Nat → SlideApi) (parsed_presentation : List (Nat × String))
      (presentation_topic : String) (max_retry : Nat) (m : List (Nat × String)),
      generate_explanation_for_presentation apis parsed_presentation presentation_topic
          max_retry = Except.ok m →
      m.map Prod.fst = List.range' 1 parsed_presentation.length ∧
      ∀ order : List Nat, order.Perm (m.map Prod.fst) →
        writeResults (fun i => ((m.lookup i).getD "")) order
          = writeResults (fun i => ((m.lookup i).getD "")) (m.map Prod.fst) := by
  intro apis parsed_presentation presentation_topic max_retry m h
  refine ⟨coordinator_ok_keys _ _ _ _ _ h, ?_⟩
  intro order hperm
  exact writeResults_eq_of_mem_iff _ _ _ fun i => hperm.mem_iff

/-- C5 witness: the amended key statement at the two-entry input
`{1: "a", 2: "b"}` with an oracle that always succeeds with completion
`C`. -/
theorem c5_witness :
    ([(1, "C"), (2, "C")] : List (Nat × String)).map Prod.fst = List.range' 1 2 ∧
    ∀ order : List Nat,
      order.Perm (([(1, "C"), (2, "C")] : List (Nat × String)).map Prod.fst) →
      writeResults (fun i => ((([(1, "C"), (2, "C")] : List (Nat × String)).lookup i).getD ""))
          order
        = writeResults (fun i => ((([(1, "C"), (2, "C")] : List (Nat × String)).lookup i).getD ""))
          (([(1, "C"), (2, "C")] : List (Nat × String)).map Prod.fst) :=
  c5_result_keys_are_one_to_n (fun _ _ _ => Except.ok "C") [(1, "a"), (2, "b")] "t" 1
    [(1, "C"), (2, "C")] rfl

/-- C8: for the input `{1: "Intro", 2: "", 3: "Conclusion"}` with topic
`Networking` and a remote collaborator that always succeeds on the first
attempt, the coordinator returns exactly the mapping sending 1 to the
completion of slide 1, 2 to the no-text sentinel, and 3 to the completion of
slide 3, all three keys present; and writing the three per-key outcomes in
any completion order yields the same dictionary. -/
theorem c8_scenario_networking :
    ∀ (apis : Nat → Nat → SlideApi) (c : Nat → String) (max_retry : Nat),
      1 ≤ max_retry →
      (∀ i k msgs, apis i k msgs = Except.ok (c i)) →
      (generate_explanation_for_presentation apis
          [(1, "Intro"), (2, ""), (3, "Conclusion")] "Networking" max_retry
        = Except.ok [(1, c 1), (2, "No text in the slide - unable to generate explanation"),
            (3, c 3)]) ∧
      ∀ order : List Nat, order.Perm [1, 2, 3] →
        writeResults (fun i =>
            ((([(1, c 1), (2, "No text in the slide - unable to generate explanation"),
              (3, c 3)] : List (Nat × String)).lookup i).getD "")) order
          = writeResults (fun i =>
            ((([(1, c 1), (2, "No text in the slide - unable to generate explanation"),
              (3, c 3)] : List (Nat × String)).lookup i).getD "")) [1, 2, 3] := by
  intro apis c max_retry hmr hok
  constructor
  · obtain ⟨r, rfl⟩ : ∃ r, max_retry = r + 1 := ⟨max_retry - 1, by omega⟩
    simp only [generate_explanation_for_presentation]
    rw [show (([(1, "Intro"), (2, ""), (3, "Conclusion")] : List (Nat × String)).map
        Prod.snd).enum = [(0, "Intro"), (1, ""), (2, "Conclusion")] from rfl]
    simp only [List.map_cons, List.map_nil]
    rw [safely_first_ok (apis (0 + 1)) "Intro" "Networking" (c (0 + 1)) r (0 + 1)
        (by decide) (by decide) (hok (0 + 1) 0 (slideMessages "Intro" "Networking"))]
    rw [safely_blank (apis (1 + 1)) "" "Networking" r (1 + 1) (by simp)]
    rw [safely_first_ok (apis (2 + 1)) "Conclusion" "Networking" (c (2 + 1)) r (2 + 1)
        (by decide) (by decide) (hok (2 + 1) 0 (slideMessages "Conclusion" "Networking"))]
    rfl
  · intro order hperm
    exact writeResults_eq_of_mem_iff _ _ _ fun i => hperm.mem_iff

/-- C8 witness: the scenario at `max_retry = 1` with the constant completion
`C`. -/
theorem c8_witness :
    (generate_explanation_for_presentation (fun _ _ _ => Except.ok "C")
        [(1, "Intro"), (2, ""), (3, "Conclusion")] "Networking" 1
      = Except.ok [(1, "C"), (2, "No text in the slide - unable to generate explanation"),
          (3, "C")]) ∧
    ∀ order : List Nat, order.Perm [1, 2, 3] →
      writeResults (fun i =>
          ((([(1, "C"), (2, "No text in the slide - unable to generate explanation"),
            (3, "C")] : List (Nat × String)).lookup i).getD "")) order
        = writeResults (fun i =>
          ((([(1, "C"), (2, "No text in the slide - unable to generate explanation"),
            (3, "C")] : List (Nat × String)).lookup i).getD "")) [1, 2, 3] :=
  c8_scenario_networking (fun _ _ _ => Except.ok "C") (fun _ => "C") 1 (by decide)
    (fun _ _ _ => rfl)

/-- C9 counterexample: the claim states that no entity survives across
invocations, a second invocation on a smaller mapping containing no entries
left over from the first.  In the draft coordinator of
`src/gpt_slide_expander.py` the accumulator is the instance attribute
`expanded_slide_explanations`, which is never cleared: after a first
invocation on `{1: "a", 2: "b"}` and a second one on `{1: "c"}`, the
accumulator still holds the slide-2 entry written by the first
invocation. -/
theorem c9_counterexample_draft_accumulator_persists :
    (do
      let s1 ← draft_generate_explanation_for_presentation (fun _ _ _ => Except.ok "C")
        (fun _ => none) [(1, "a"), (2, "b")] "t" 1
      let s2 ← draft_generate_explanation_for_presentation (fun _ _ _ => Except.ok "C")
        s1 [(1, "c")] "t" 1
      pure (s2 2) : Except PyErr (Option String)) = Except.ok (some "C") := by
  rfl

/-- C9 amended: the static coordinator of
`src/gpt_explainer/gpt_slide_expander.py` owns its result entirely within
one invocation — whenever it returns a mapping, the keys are exactly the
`1..n` derived from the current input, with no entry from anywhere else —
while the draft coordinator of `src/gpt_slide_expander.py` writes into a
persistent accumulator, touching exactly the keys `1..n` of the current
input and leaving every other accumulated entry in place across
invocations. -/
theorem c9_per_invocation_state :
    ∀ (apis : Nat → Nat → SlideApi) (parsed_presentation : List (Nat × String))
      (presentation_topic : String) (max_retry : Nat),
      (∀ (st st2 : Nat → Option String),
        draft_generate_explanation_for_presentation apis st parsed_presentation
            presentation_topic max_retry = Except.ok st2 →
        ∀ j, j ∉ List.range' 1 parsed_presentation.length → st2 j = st j) ∧
      (∀ m, generate_explanation_for_presentation apis parsed_presentation
            presentation_topic max_retry = Except.ok m →
        m.map Prod.fst = List.range' 1 parsed_presentation.length) := by
  intro apis parsed_presentation presentation_topic max_retry
  constructor
  · intro st st2 h j hj
    simp only [draft_generate_explanation_for_presentation] at h
    split at h
    · exact Except.noConfusion h
    · rename_i results heq
      cases h
      have hlen := gatherExcept_ok_length _ _ heq
      simp only [List.length_map, List.enum_length] at hlen
      refine foldl_update_pairs_of_not_mem _ _ _ ?_
      rw [List.enumFrom_map_fst, hlen]
      exact hj
  · intro m h
    exact coordinator_ok_keys _ _ _ _ _ h

/-- C9 witness: the amended frame statement of the draft coordinator at the
one-entry input `{1: "a"}`, starting from an accumulator holding `OLD`
everywhere: key 5 is untouched. -/
theorem c9_witness :
    Function.update (fun _ => (some "OLD" : Option String)) 1 (some "C") 5 = some "OLD" :=
  (c9_per_invocation_state (fun _ _ _ => Except.ok "C") [(1, "a")] "t" 1).1
    (fun _ => some "OLD") (Function.update (fun _ => (some "OLD" : Option String)) 1 (some "C"))
    rfl 5 (by decide)

/-- Mapping `index + 1` over an enumeration yields the contiguous 1-shifted
index range. -/
theorem enumFrom_map_fst_add_one {α : Type} :
    ∀ (l : List α) (s : Nat),
      (List.enumFrom s l).map (fun p => p.1 + 1) = List.range' (s + 1) l.length := by
  intro l
  induction l with
  | nil => intro s; rfl
  | cons a t ih =>
    intro s
    rw [show List.enumFrom s (a :: t) = (s, a) :: List.enumFrom (s + 1) t from rfl,
      List.map_cons, ih (s + 1), List.length_cons, List.range'_succ]

/-- C10: for every presentation with `n` slides,
`extract_text_from_presentation` produces a mapping whose keys are exactly
the contiguous 1-based indices `1..n` in slide order, storing under key
`i + 1` the cleaned text extracted from slide `i` — the empty string when no
text was extracted — thereby establishing the contiguous-key, possibly
empty-text shape the coordinator assumes of its input. -/
theorem c10_parser_establishes_contiguous_keys :
    ∀ (slides : List Slide),
      (extract_text_from_presentation slides).map Prod.fst
          = List.range' 1 slides.length ∧
      ∀ (i : Nat) (h : i < slides.length),
        (extract_text_from_presentation slides)[i]?
          = some (i + 1, (extract_text_from_slide slides[i]).replace "Â©" "") := by
  intro slides
  constructor
  · rw [extract_text_from_presentation, List.map_map]
    exact enumFrom_map_fst_add_one slides 0
  · intro i h
    rw [extract_text_from_presentation, List.getElem?_map, List.getElem?_enum,
      List.getElem?_eq_getElem h]
    by_cases ht : (extract_text_from_slide slides[i]).replace "Â©" "" = ""
    · simp [ht]
    · simp [ht]

/-- C10 witness: the parser statement at a one-slide presentation whose
slide has no shapes, hence no text: the single entry is key 1 with the empty
string. -/
theorem c10_witness :
    (extract_text_from_presentation ([[]] : List Slide))[0]?
      = some (1, (extract_text_from_slide ([] : List Shape)).replace "Â©" "") :=
  (c10_parser_establishes_contiguous_keys ([[]] : List Slide)).2 0 (by decide)
